import Mathlib

/-!
Shallow embedding of the analytics service implemented in `analyss.py`.

The embedding covers the data-loading step (`load_data`) and the per-endpoint
view computations, with the pandas null semantics of the source made explicit:

* a stored document is a `Record` with `Option` fields (`none` models both an
  absent key and a null/NaN value, which pandas treats alike for the
  aggregations used here);
* `purchaseAmount`, `customerAge` and category amounts are rationals (the
  source holds IEEE doubles, but every computation it performs on them —
  sums, means, min/max, comparisons — is exact on the decimal inputs the
  service receives, so `ℚ` is a faithful carrier);
* pandas `sum`/`mean`/`min`/`max` skip nulls (`filterMap`), `groupby` drops
  null keys and sorts the remaining keys, `value_counts` drops null values;
* Python dicts in JSON responses are modelled as association lists; the key
  order of a dict is not semantically load-bearing and is not modelled,
  except where the source explicitly sorts (the chart endpoints);
* the storage collaborator is an `Except String (List Record)`: `.error m`
  models the driver raising an exception with message `m`, which the source
  catches (`except` clauses) — `str(e)` becomes the carried message;
* the `last_updated` wall-clock timestamp of the stats payload is outside
  the model (pure embedding of the aggregation logic).
-/

/-- Raw dynamically-typed value, as found in the `amount` field of a
`categories` entry of a stored document (the values reaching Python
`float(...)` in the source). -/
inductive PyVal where
  | pyStr (s : String)
  | pyNum (q : ℚ)
  | pyBool (b : Bool)
  | pyNone
deriving DecidableEq, Repr

/-- Numeric value of a decimal-digit string; models the successful case of
Python `float` on the plain nonnegative integer strings this development
uses. Every other string fails, as `float` raises `ValueError` on it. -/
def strToRatQ (s : String) : Option ℚ :=
  if s != "" && s.data.all (·.isDigit) then
    some ((s.data.foldl (fun n c => 10 * n + (c.toNat - 48)) 0 : ℕ) : ℚ)
  else none

/-- Python `float(v)`: numbers pass through, booleans coerce to 0/1, strings
are parsed (raising `ValueError` when unparsable), `None` raises
`TypeError`. The `.error` message models `str(e)` of the raised exception. -/
def floatPy : PyVal → Except String ℚ
  | .pyNum q => .ok q
  | .pyBool b => .ok (if b then 1 else 0)
  | .pyStr s =>
      match strToRatQ s with
      | some q => .ok q
      | none => .error ("could not convert string to float: " ++ s)
  | .pyNone => .error "float() argument must be a string or a real number, not NoneType"

/-- The fixed season domain of the data model (section 3 of the spec):
`season` is one of these four values or null. -/
inductive Season where
  | winter
  | spring
  | summer
  | fall
deriving DecidableEq, Repr

/-- The string stored for a season (the groupby key / chart label text). -/
def Season.str : Season → String
  | .winter => "Winter"
  | .spring => "Spring"
  | .summer => "Summer"
  | .fall => "Fall"

/-- Position in the fixed ordinal order `['Winter', 'Spring', 'Summer',
'Fall']` that `get_seasonal_sales_chart` imposes via `pd.Categorical`. -/
def Season.idx : Season → Nat
  | .winter => 0
  | .spring => 1
  | .summer => 2
  | .fall => 3

/-- Position of the season string in alphabetical order
(`Fall < Spring < Summer < Winter`), the order in which `groupby` emits
season keys before the categorical reordering. -/
def Season.alphaIdx : Season → Nat
  | .fall => 0
  | .spring => 1
  | .summer => 2
  | .winter => 3

/-- An element of a record's raw `categories` list: either not a dict
(skipped by the `isinstance(cat, dict)` check of the source) or a dict,
of which the source reads only the `category` and `amount` keys, each
possibly absent. A present category value is kept as the string it holds;
non-string category values never occur in the scenarios of this
development and are outside the model. -/
inductive CatEntry where
  | notDict
  | entry (cat : Option String) (amt : Option PyVal)
deriving DecidableEq, Repr

/-- One expanded (category, amount) observation, produced by the
`category_data.append({...})` loop: the category after the
`cat.get('category', 'Unknown')` default and the amount after `float`. -/
structure CatShare where
  category : String
  amount : ℚ
deriving DecidableEq, Repr

/-- One stored purchase document, restricted to the fields of the Mongo
projection, with the schema of the data model: nullable fields are
`Option`, `none` modelling an absent key or a null value alike (both
become NaN/None in the loaded DataFrame). `orderDate` carries the
date-only string that `df['orderDate'].dt.date.astype(str)` produces. -/
structure Record where
  userId : String
  customerAge : Option ℚ := none
  customerGender : Option String := none
  purchaseAmount : Option ℚ := none
  location : Option String := none
  season : Option Season := none
  categories : Option (List CatEntry) := none
  orderDate : Option String := none
  marketId : String := ""
deriving DecidableEq, Repr

/-- Validity of a string argument to `bson.ObjectId`: exactly 24
hexadecimal characters (the external store's identifier format). -/
def isValidObjectId (s : String) : Bool :=
  s.length == 24 &&
    s.data.all (fun c => c.isDigit || ('a' ≤ c && c ≤ 'f') || ('A' ≤ c && c ≤ 'F'))

/-- Python truthiness of the optional `market_id` request parameter
(`if market_id:`): `None` and the empty string are falsy. -/
def truthy : Option String → Bool
  | none => false
  | some s => s != ""

/-- The `market_id or 'all'` expression echoed in every payload. -/
def echoMarket (market_id : Option String) : String :=
  if truthy market_id then market_id.getD "" else "all"

/-- The `load_data` function: validates a truthy market filter as an
ObjectId (returning the `"Invalid market ID format"` error before touching
the store), then reads the record set, filtering on `marketId` when a
filter is given. A storage fault is caught and becomes
`(empty DataFrame, str(e))`. -/
def load_data (src : Except String (List Record)) (market_id : Option String) :
    List Record × Option String :=
  if truthy market_id then
    if isValidObjectId (market_id.getD "") then
      match src with
      | .ok rs => (rs.filter (fun r => r.marketId == market_id.getD ""), none)
      | .error m => ([], some m)
    else ([], some "Invalid market ID format")
  else
    match src with
    | .ok rs => (rs, none)
    | .error m => ([], some m)

/-- An endpoint's response: a JSON payload (HTTP 200 from `jsonify`) or an
error object `{"error": msg}` with its HTTP status code. -/
inductive Resp (α : Type) where
  | ok (payload : α)
  | err (msg : String) (code : Nat)
deriving DecidableEq

instance {ε α : Type} [DecidableEq ε] [DecidableEq α] : DecidableEq (Except ε α) :=
  fun a b =>
    match a, b with
    | .ok x, .ok y => decidable_of_iff (x = y) (by simp)
    | .error x, .error y => decidable_of_iff (x = y) (by simp)
    | .ok _, .error _ => isFalse (by simp)
    | .error _, .ok _ => isFalse (by simp)

/-- Lexicographic byte-wise comparison of character lists, the order in
which pandas `groupby` sorts string keys. -/
def charListLe : List Char → List Char → Bool
  | [], _ => true
  | _ :: _, [] => false
  | c :: cs, d :: ds => if c.toNat = d.toNat then charListLe cs ds else decide (c.toNat < d.toNat)

/-- Alphabetical (lexicographic) comparison of strings. -/
def strLe (a b : String) : Bool := charListLe a.data b.data

/-- Alphabetical comparison as a sort relation. -/
def strLeP (a b : String) : Prop := strLe a b = true

instance : DecidableRel strLeP := fun _ _ => instDecidableEqBool _ _

/-- Descending order on the numeric second component, the
`sort_values(..., ascending=False)` relation of the chart endpoints.
The source's quicksort is modelled by a stable sort; no claim depends on
the tie behaviour beyond what the stable model exhibits on the inputs
where numpy's small-array insertion sort is itself stable. -/
def descQ {K : Type} (p q : K × ℚ) : Prop := q.2 ≤ p.2

instance {K : Type} : DecidableRel (@descQ K) := fun p q => by
  unfold descQ; infer_instance

/-- Descending order on counts, for `value_counts`-shaped rows. -/
def descN {K : Type} (p q : K × Nat) : Prop := q.2 ≤ p.2

instance {K : Type} : DecidableRel (@descN K) := fun p q => by
  unfold descN; infer_instance

/-- Alphabetical order on season groupby keys. -/
def seasonAlphaLe (a b : Season) : Prop := a.alphaIdx ≤ b.alphaIdx

instance : DecidableRel seasonAlphaLe := fun a b => Nat.decLe _ _

/-- The fixed ordinal order imposed on seasons by `pd.Categorical`. -/
def seasonOrdLe (p q : Season × ℚ) : Prop := p.1.idx ≤ q.1.idx

instance : DecidableRel seasonOrdLe := fun p q => Nat.decLe _ _

/-- Contents of `groupby(key)[value].sum().to_dict()`: each distinct key —
null keys have already been dropped by the caller, as `groupby` drops them —
with the sum of the non-null values attached to it (pandas `sum` skips NaN,
and an all-NaN group sums to 0). Keys come out sorted, as `groupby` sorts
them. -/
def groupSum {K : Type} [DecidableEq K] (le : K → K → Prop) [DecidableRel le]
    (pairs : List (K × Option ℚ)) : List (K × ℚ) :=
  (List.insertionSort le (pairs.map Prod.fst).dedup).map
    (fun k => (k, ((pairs.filter (fun p => p.1 == k)).filterMap Prod.snd).sum))

/-- Contents of `value_counts().to_dict()`: each distinct (non-null) value
with its number of occurrences. -/
def countsBy {K : Type} [DecidableEq K] (ks : List K) : List (K × Nat) :=
  ks.dedup.map (fun k => (k, ks.count k))

/-- Contents of `groupby(key)[value].mean().to_dict()` for the expanded
category observations, whose amounts are all non-null. -/
def groupMean {K : Type} [DecidableEq K] (le : K → K → Prop) [DecidableRel le]
    (pairs : List (K × ℚ)) : List (K × ℚ) :=
  (List.insertionSort le (pairs.map Prod.fst).dedup).map
    (fun k =>
      let vs := (pairs.filter (fun p => p.1 == k)).map Prod.snd
      (k, vs.sum / vs.length))

/-- The non-null purchase amounts of a record set (the values pandas
`sum`/`mean` actually aggregate over). -/
def nonNullAmounts (rs : List Record) : List ℚ := rs.filterMap (·.purchaseAmount)

/-- The `stats` payload of `/api/stats` (minus the wall-clock
`last_updated` field): `avg_purchase` is `none` when the column holds no
non-null amount, modelling the NaN mean. -/
structure Stats where
  total_sales : ℚ
  avg_purchase : Option ℚ
  total_orders : Nat
  unique_customers : Nat
  market_id : String
deriving DecidableEq, Repr

/-- The `/api/stats` endpoint; `nunique` drops nothing here because
`userId` is non-null in the schema. -/
def get_stats (src : Except String (List Record)) (market_id : Option String) :
    Resp Stats :=
  let ldr := load_data src market_id
  if ldr.1.isEmpty then .err (ldr.2.getD "No data found") 404
  else
    let amts := nonNullAmounts ldr.1
    .ok { total_sales := amts.sum
        , avg_purchase := if amts.isEmpty then none else some (amts.sum / amts.length)
        , total_orders := ldr.1.length
        , unique_customers := (ldr.1.map (·.userId)).dedup.length
        , market_id := echoMarket market_id }

/-- The raw `categories` list of a record; an absent or non-list field
contributes no entries (the `isinstance(row.get('categories'), list)`
guard). -/
def recordEntries (r : Record) : List CatEntry := r.categories.getD []

/-- Expansion of one `categories` entry: a non-dict entry is skipped
(`none`); a dict entry yields a `CatShare` after the
`cat.get('category', 'Unknown')` and `float(cat.get('amount', 0))`
defaults, `float` possibly raising. -/
def expandEntry : CatEntry → Except String (Option CatShare)
  | .notDict => .ok none
  | .entry c a =>
      match floatPy (a.getD (.pyNum 0)) with
      | .ok q => .ok (some { category := c.getD "Unknown", amount := q })
      | .error m => .error m

/-- Expansion of a whole `categories` list, in order; the first `float`
failure aborts the loop with the raised exception. -/
def expandEntries : List CatEntry → Except String (List CatShare)
  | [] => .ok []
  | e :: es =>
      match expandEntry e with
      | .error m => .error m
      | .ok o =>
          match expandEntries es with
          | .error m => .error m
          | .ok rest => .ok (match o with | some c => c :: rest | none => rest)

/-- The `category_data` list built by iterating `df.iterrows()`: the
concatenated expansions of every record, aborted by the first raised
exception. -/
def expandRecords : List Record → Except String (List CatShare)
  | [] => .ok []
  | r :: rs =>
      match expandEntries (recordEntries r) with
      | .error m => .error m
      | .ok cs =>
          match expandRecords rs with
          | .error m => .error m
          | .ok rest => .ok (cs ++ rest)

/-- The `/api/categories` payload. -/
structure CategoriesPayload where
  distribution : List (String × Nat)
  sales : List (String × ℚ)
  average_purchase : List (String × ℚ)
  market_id : String
deriving DecidableEq, Repr

/-- The `/api/categories` endpoint: any exception in the body — here, a
`float` failure during expansion — is caught by the `except` clause and
returned as `{"error": str(e)}` with status 500. An empty expansion gives
three empty dicts. -/
def get_categories (src : Except String (List Record)) (market_id : Option String) :
    Resp CategoriesPayload :=
  let ldr := load_data src market_id
  if ldr.1.isEmpty then .err (ldr.2.getD "No data found") 404
  else
    match expandRecords ldr.1 with
    | .error m => .err m 500
    | .ok obs =>
        .ok { distribution := countsBy (obs.map (·.category))
            , sales := groupSum strLeP (obs.map (fun c => (c.category, some c.amount)))
            , average_purchase := groupMean strLeP (obs.map (fun c => (c.category, c.amount)))
            , market_id := echoMarket market_id }

/-- The `location` value-counts dict: `value_counts` drops null values. -/
def locationCounts (df : List Record) : List (String × Nat) :=
  countsBy (df.filterMap (·.location))

/-- The per-location purchase sums: `groupby('location')` drops null keys;
`sum` skips null amounts within a group. -/
def locationSales (df : List Record) : List (String × ℚ) :=
  groupSum strLeP (df.filterMap (fun r => r.location.map (fun l => (l, r.purchaseAmount))))

/-- The per-location sums sorted descending by amount, as the location
chart's `sort_values('purchaseAmount', ascending=False)`. -/
def locationSalesPairs (df : List Record) : List (String × ℚ) :=
  List.insertionSort descQ (locationSales df)

/-- The category names observed in one record (the inner loop of the
top-category computation, which applies the `'Unknown'` default but never
calls `float`). -/
def entryCategoryNames (r : Record) : List String :=
  (recordEntries r).filterMap fun e =>
    match e with
    | .notDict => none
    | .entry c _ => some (c.getD "Unknown")

/-- Most frequent element, `value_counts().index[0]`; the tie order of
`value_counts` is not pinned by the source and no claim depends on it. -/
def top1 (xs : List String) : String :=
  ((List.insertionSort descN (countsBy xs)).headD ("", 0)).1

/-- The top-category-per-location dict. The source iterates
`df['location'].unique()` — which includes NaN — and filters with
`df['location'] == location`; for the NaN entry that comparison is
everywhere false (NaN equals nothing), the sub-frame is empty and the
entry is skipped, so only non-null locations can produce a key. -/
def topCategories (df : List Record) : List (String × String) :=
  (df.map (·.location)).dedup.filterMap fun u =>
    match u with
    | none => none
    | some loc =>
        let sub := df.filter (fun r => r.location == some loc)
        if sub.isEmpty then none
        else
          let cats := (sub.map entryCategoryNames).flatten
          if cats.isEmpty then none else some (loc, top1 cats)

/-- The `/api/locations` payload. -/
structure LocationsPayload where
  distribution : List (String × Nat)
  sales : List (String × ℚ)
  top_categories : List (String × String)
  market_id : String
deriving DecidableEq, Repr

/-- The `/api/locations` endpoint. -/
def get_locations (src : Except String (List Record)) (market_id : Option String) :
    Resp LocationsPayload :=
  let ldr := load_data src market_id
  if ldr.1.isEmpty then .err (ldr.2.getD "No data found") 404
  else
    .ok { distribution := locationCounts ldr.1
        , sales := locationSales ldr.1
        , top_categories := topCategories ldr.1
        , market_id := echoMarket market_id }

/-- The `/api/time_analysis` payload. -/
structure TimePayload where
  season_sales : List (String × ℚ)
  daily_sales : List (String × ℚ)
  market_id : String
deriving DecidableEq, Repr

/-- The `/api/time_analysis` endpoint: sums by season string and by
date-only string; the daily series is computed only when some `orderDate`
is non-null (the `isnull().all()` guard), and `groupby` drops the null
dates from it. -/
def get_time_analysis (src : Except String (List Record)) (market_id : Option String) :
    Resp TimePayload :=
  let ldr := load_data src market_id
  if ldr.1.isEmpty then .err (ldr.2.getD "No data found") 404
  else
    .ok { season_sales :=
            groupSum strLeP
              (ldr.1.filterMap (fun r => r.season.map (fun s => (s.str, r.purchaseAmount))))
        , daily_sales :=
            if ldr.1.all (fun r => r.orderDate.isNone) then []
            else
              groupSum strLeP
                (ldr.1.filterMap (fun r => r.orderDate.map (fun d => (d, r.purchaseAmount))))
        , market_id := echoMarket market_id }

/-- The five labels of `pd.cut(..., bins=[0, 25, 35, 45, 55, 100],
labels=..., right=False)`. -/
def ageLabels : List String := ["<25", "25-34", "35-44", "45-54", "55+"]

/-- The bucket `pd.cut` assigns to one age: half-open bands, closed on the
left, with bin edges 0, 25, 35, 45, 55, 100. An age outside `[0, 100)`
falls in no band and becomes NaN, which the subsequent counts drop. -/
def ageBucket (a : ℚ) : Option String :=
  if 0 ≤ a ∧ a < 25 then some "<25"
  else if 25 ≤ a ∧ a < 35 then some "25-34"
  else if 35 ≤ a ∧ a < 45 then some "35-44"
  else if 45 ≤ a ∧ a < 55 then some "45-54"
  else if 55 ≤ a ∧ a < 100 then some "55+"
  else none

/-- Contents of `df['Age Group'].value_counts().to_dict()`: the column is
categorical, so every one of the five labels gets an entry, including the
labels with count 0 (`Categorical.value_counts` documents this); null ages
and out-of-band ages are NaN in the column and are dropped. The dict's key
order (descending count in pandas) is not modelled. -/
def ageGroupCounts (ages : List ℚ) : List (String × Nat) :=
  ageLabels.map fun l => (l, (ages.filter (fun a => ageBucket a == some l)).length)

/-- Minimum of a list of rationals (total on the non-empty lists it is
applied to). -/
def listMin : List ℚ → ℚ
  | [] => 0
  | a :: as => as.foldl min a

/-- Maximum of a list of rationals (total on the non-empty lists it is
applied to). -/
def listMax : List ℚ → ℚ
  | [] => 0
  | a :: as => as.foldl max a

/-- The `age_stats` sub-object of the demographics payload. -/
structure AgeStats where
  average : ℚ
  min : ℚ
  max : ℚ
  groups : List (String × Nat)
deriving DecidableEq, Repr

/-- The age statistics: `none` models the empty `age_stats = {}` kept when
every age is null (the `isnull().all()` guard); otherwise mean, min and max
are taken over the non-null ages only (pandas skips NaN). -/
def ageStatsOf (df : List Record) : Option AgeStats :=
  let ages := df.filterMap (·.customerAge)
  if ages.isEmpty then none
  else
    some { average := ages.sum / ages.length
         , min := listMin ages
         , max := listMax ages
         , groups := ageGroupCounts ages }

/-- The `/api/demographics` payload. -/
structure DemographicsPayload where
  gender_distribution : List (String × Nat)
  gender_sales : List (String × ℚ)
  age_stats : Option AgeStats
  market_id : String
deriving DecidableEq, Repr

/-- The `/api/demographics` endpoint. -/
def get_demographics (src : Except String (List Record)) (market_id : Option String) :
    Resp DemographicsPayload :=
  let ldr := load_data src market_id
  if ldr.1.isEmpty then .err (ldr.2.getD "No data found") 404
  else
    .ok { gender_distribution := countsBy (ldr.1.filterMap (·.customerGender))
        , gender_sales :=
            groupSum strLeP
              (ldr.1.filterMap (fun r => r.customerGender.map (fun g => (g, r.purchaseAmount))))
        , age_stats := ageStatsOf ldr.1
        , market_id := echoMarket market_id }

/-- A chart-shaped payload: parallel label/value sequences. -/
structure ChartData where
  labels : List String
  values : List ℚ
  title : String
  market_id : String
deriving DecidableEq, Repr

/-- The category chart's row list: per-category sums (alphabetically keyed
by `groupby`) sorted descending by amount. The source's
`sort_values(ascending=False)` runs numpy's unstable introsort, which fixes
no tie order in general; this executable model refines that unspecified
sort with a stable insertion sort, and only properties independent of the
tie order are asserted of the program — except on small tied inputs (below
the introsort's insertion-sort threshold), where numpy itself sorts stably
and the model's output coincides with the program's. -/
def categorySalesPairs (obs : List CatShare) : List (String × ℚ) :=
  List.insertionSort descQ
    (groupSum strLeP (obs.map (fun c => (c.category, some c.amount))))

/-- The `/api/charts/category_sales` endpoint; it reruns the same
expansion, so a `float` failure surfaces here too as a 500. When the
expansion yields no observation, `category_sales` is still the plain
Python list `[]`, so the `category_sales.empty` attribute access raises
AttributeError and the `except` clause turns the request into a 500 (the
modelled message omits the quote marks Python places around the two
names). -/
def get_category_sales_chart (src : Except String (List Record))
    (market_id : Option String) : Resp ChartData :=
  let ldr := load_data src market_id
  if ldr.1.isEmpty then .err (ldr.2.getD "No data found") 404
  else
    match expandRecords ldr.1 with
    | .error m => .err m 500
    | .ok obs =>
        if obs.isEmpty then .err "list object has no attribute empty" 500
        else
          let pairs := categorySalesPairs obs
          .ok { labels := pairs.map Prod.fst
              , values := pairs.map Prod.snd
              , title := "Sales by Category"
              , market_id := echoMarket market_id }

/-- The `/api/charts/location_sales` endpoint. -/
def get_location_sales_chart (src : Except String (List Record))
    (market_id : Option String) : Resp ChartData :=
  let ldr := load_data src market_id
  if ldr.1.isEmpty then .err (ldr.2.getD "No data found") 404
  else
    let pairs := locationSalesPairs ldr.1
    .ok { labels := pairs.map Prod.fst
        , values := pairs.map Prod.snd
        , title := "Sales by Location"
        , market_id := echoMarket market_id }

/-- The `/api/charts/gender_distribution` endpoint: gender counts shaped as
labels/values; `value_counts` emits rows by descending count. -/
def get_gender_distribution_chart (src : Except String (List Record))
    (market_id : Option String) : Resp ChartData :=
  let ldr := load_data src market_id
  if ldr.1.isEmpty then .err (ldr.2.getD "No data found") 404
  else
    let counts := List.insertionSort descN (countsBy (ldr.1.filterMap (·.customerGender)))
    .ok { labels := counts.map Prod.fst
        , values := counts.map (fun p => (p.2 : ℚ))
        , title := "Gender Distribution"
        , market_id := echoMarket market_id }

/-- The seasonal chart's row list: `groupby('season')` sums (keys in
alphabetical order), reordered by the fixed ordinal season order via
`pd.Categorical` + `sort_values('season')`. -/
def seasonSalesPairs (df : List Record) : List (Season × ℚ) :=
  List.insertionSort seasonOrdLe
    (groupSum seasonAlphaLe
      (df.filterMap (fun r => r.season.map (fun s => (s, r.purchaseAmount)))))

/-- The `/api/charts/seasonal_sales` endpoint. -/
def get_seasonal_sales_chart (src : Except String (List Record))
    (market_id : Option String) : Resp ChartData :=
  let ldr := load_data src market_id
  if ldr.1.isEmpty then .err (ldr.2.getD "No data found") 404
  else
    let pairs := seasonSalesPairs ldr.1
    .ok { labels := pairs.map (fun p => p.1.str)
        , values := pairs.map Prod.snd
        , title := "Sales by Season"
        , market_id := echoMarket market_id }

/-! General lemmas about the ordering and grouping helpers. -/

theorem charListLe_total : ∀ x y : List Char, charListLe x y = true ∨ charListLe y x = true := by
  intro x
  induction x with
  | nil => intro y; left; rfl
  | cons c cs ih =>
      intro y
      cases y with
      | nil => right; rfl
      | cons d ds =>
          simp only [charListLe]
          by_cases h : c.toNat = d.toNat
          · simpa [h] using ih ds
          · have h2 : ¬ d.toNat = c.toNat := fun hh => h hh.symm
            simp only [h, h2, if_false, decide_eq_true_eq]
            omega

theorem charListLe_trans :
    ∀ x y z : List Char, charListLe x y = true → charListLe y z = true →
      charListLe x z = true := by
  intro x
  induction x with
  | nil => intro y z _ _; rfl
  | cons c cs ih =>
      intro y z hxy hyz
      cases y with
      | nil => simp [charListLe] at hxy
      | cons d ds =>
          cases z with
          | nil => simp [charListLe] at hyz
          | cons e es =>
              simp only [charListLe] at hxy hyz ⊢
              by_cases h1 : c.toNat = d.toNat <;> by_cases h2 : d.toNat = e.toNat
              · rw [if_pos h1] at hxy
                rw [if_pos h2] at hyz
                rw [if_pos (h1.trans h2)]
                exact ih ds es hxy hyz
              · rw [if_pos h1] at hxy
                rw [if_neg h2, decide_eq_true_eq] at hyz
                have hne : ¬ c.toNat = e.toNat := by omega
                rw [if_neg hne, decide_eq_true_eq]
                omega
              · rw [if_neg h1, decide_eq_true_eq] at hxy
                rw [if_pos h2] at hyz
                have hne : ¬ c.toNat = e.toNat := by omega
                rw [if_neg hne, decide_eq_true_eq]
                omega
              · rw [if_neg h1, decide_eq_true_eq] at hxy
                rw [if_neg h2, decide_eq_true_eq] at hyz
                have hne : ¬ c.toNat = e.toNat := by omega
                rw [if_neg hne, decide_eq_true_eq]
                omega

theorem strLe_total (a b : String) : strLe a b = true ∨ strLe b a = true :=
  charListLe_total a.data b.data

theorem strLe_trans (a b c : String) :
    strLe a b = true → strLe b c = true → strLe a c = true :=
  charListLe_trans a.data b.data c.data

theorem pairwise_insertionSort {α : Type} (r : α → α → Prop) [DecidableRel r]
    (htot : ∀ a b, r a b ∨ r b a) (htr : ∀ a b c, r a b → r b c → r a c)
    (l : List α) : (List.insertionSort r l).Pairwise r := by
  haveI : IsTotal α r := ⟨htot⟩
  haveI : IsTrans α r := ⟨htr⟩
  exact List.sorted_insertionSort r l

theorem groupSum_map_fst {K : Type} [DecidableEq K] (le : K → K → Prop) [DecidableRel le]
    (pairs : List (K × Option ℚ)) :
    (groupSum le pairs).map Prod.fst = List.insertionSort le (pairs.map Prod.fst).dedup := by
  have hid :
      (Prod.fst ∘ fun k : K =>
        (k, ((pairs.filter (fun p => p.1 == k)).filterMap Prod.snd).sum)) = id := rfl
  rw [groupSum, List.map_map, hid, List.map_id]

theorem mem_groupSum_keys {K : Type} [DecidableEq K] (le : K → K → Prop) [DecidableRel le]
    (pairs : List (K × Option ℚ)) (k : K) :
    k ∈ (groupSum le pairs).map Prod.fst ↔ k ∈ pairs.map Prod.fst := by
  rw [groupSum_map_fst, (List.perm_insertionSort le _).mem_iff, List.mem_dedup]

theorem groupSum_keys_nodup {K : Type} [DecidableEq K] (le : K → K → Prop) [DecidableRel le]
    (pairs : List (K × Option ℚ)) :
    ((groupSum le pairs).map Prod.fst).Nodup := by
  rw [groupSum_map_fst]
  exact ((List.perm_insertionSort le _).nodup_iff).2 (List.nodup_dedup _)

theorem mem_groupSum {K : Type} [DecidableEq K] (le : K → K → Prop) [DecidableRel le]
    (pairs : List (K × Option ℚ)) (k : K) (v : ℚ)
    (h : (k, v) ∈ groupSum le pairs) :
    v = ((pairs.filter (fun p => p.1 == k)).filterMap Prod.snd).sum := by
  rw [groupSum, List.mem_map] at h
  obtain ⟨k2, _, heq⟩ := h
  obtain ⟨h1, h2⟩ := Prod.mk.injEq .. ▸ heq
  subst h1
  exact h2.symm

theorem groupSum_pairwise {K : Type} [DecidableEq K] (le : K → K → Prop) [DecidableRel le]
    (htot : ∀ a b, le a b ∨ le b a) (htr : ∀ a b c, le a b → le b c → le a c)
    (pairs : List (K × Option ℚ)) :
    (groupSum le pairs).Pairwise (fun p q => le p.1 q.1 ∧ p.1 ≠ q.1) := by
  have hsorted : (List.insertionSort le (pairs.map Prod.fst).dedup).Pairwise le :=
    pairwise_insertionSort le htot htr _
  have hnodup : (List.insertionSort le (pairs.map Prod.fst).dedup).Nodup :=
    ((List.perm_insertionSort le _).nodup_iff).2 (List.nodup_dedup _)
  have hand := hsorted.and hnodup
  rw [groupSum, List.pairwise_map]
  exact hand.imp (fun h => ⟨h.1, h.2⟩)

/-! Claim C1: summary stats over two non-null amounts, one null amount, two
distinct users. -/

/-- C1: for every record set of three records whose purchaseAmount
multiset is {10, 20, null} and with exactly two distinct userId values,
the stats view returns total_sales = 30, avg_purchase = 15 (mean over the
two non-null amounts), total_orders = 3 and unique_customers = 2: the
null-amount record is excluded from sum and mean but still counts toward
the order total and the unique-customer count. -/
theorem c1_summary_stats (rs : List Record)
    (hamt : (rs.map (·.purchaseAmount)).Perm [some 10, some 20, none])
    (husr : (rs.map (·.userId)).dedup.length = 2) :
    get_stats (.ok rs) none =
      .ok { total_sales := 30, avg_purchase := some 15, total_orders := 3,
            unique_customers := 2, market_id := "all" } := by
  have hlen : rs.length = 3 := by simpa using hamt.length_eq
  have hmap : rs.filterMap (·.purchaseAmount) = (rs.map (·.purchaseAmount)).filterMap id := by
    rw [List.filterMap_map]
    rfl
  have hperm : (rs.filterMap (·.purchaseAmount)).Perm [10, 20] := by
    rw [hmap]
    simpa using hamt.filterMap id
  have hsum : (rs.filterMap (·.purchaseAmount)).sum = 30 := by
    rw [hperm.sum_eq]
    norm_num
  have hcnt : (rs.filterMap (·.purchaseAmount)).length = 2 := by
    rw [hperm.length_eq]
    rfl
  have hne : rs.isEmpty = false := by
    cases rs with
    | nil => simp at hlen
    | cons a l => rfl
  have hamts_ne : (rs.filterMap (·.purchaseAmount)).isEmpty = false := by
    cases h : rs.filterMap (·.purchaseAmount) with
    | nil => rw [h] at hcnt; simp at hcnt
    | cons a l => rfl
  have hld : load_data (.ok rs) none = (rs, none) := by simp [load_data, truthy]
  rw [get_stats, hld]
  simp only [nonNullAmounts, hne, hamts_ne, hsum, hcnt, hlen, husr, Bool.false_eq_true,
    if_false, echoMarket, truthy]
  norm_num

/-- Concrete three-record set realising the C1 scenario. -/
def c1Recs : List Record :=
  [ { userId := "u1", purchaseAmount := some 10 },
    { userId := "u2", purchaseAmount := some 20 },
    { userId := "u1" } ]

/-- Witness for C1: the theorem applied at a concrete record set. -/
theorem c1_summary_stats_witness :
    get_stats (.ok c1Recs) none =
      .ok { total_sales := 30, avg_purchase := some 15, total_orders := 3,
            unique_customers := 2, market_id := "all" } :=
  c1_summary_stats c1Recs (by decide) (by decide)

/-! Claim C5: malformed market filter. -/

/-- C5: a market filter string that is truthy but fails ObjectId validation
makes load_data return the invalid-filter error together with an empty
record set, before any store access, and the stats endpoint reports exactly
that error (status 404) — not the generic fallback message. -/
theorem c5_invalid_market_filter (s : String) (src : Except String (List Record))
    (hne : s ≠ "") (hinv : isValidObjectId s = false) :
    load_data src (some s) = ([], some "Invalid market ID format")
    ∧ get_stats src (some s) = .err "Invalid market ID format" 404
    ∧ "Invalid market ID format" ≠ "No data found" := by
  have ht : truthy (some s) = true := by simp [truthy, hne]
  have hld : load_data src (some s) = ([], some "Invalid market ID format") := by
    simp [load_data, ht, hinv]
  refine ⟨hld, ?_, by decide⟩
  rw [get_stats, hld]
  rfl

/-- Witness for C5 at the concrete filter string "zzz". -/
theorem c5_invalid_market_filter_witness :
    load_data (.ok ([] : List Record)) (some "zzz") = ([], some "Invalid market ID format")
    ∧ get_stats (.ok ([] : List Record)) (some "zzz") = .err "Invalid market ID format" 404
    ∧ "Invalid market ID format" ≠ "No data found" :=
  c5_invalid_market_filter "zzz" (.ok []) (by decide) (by decide)

/-! Claim C7: fault handling at the request boundary. -/

/-- Record whose categories list makes the expansion raise inside the
endpoint body (a `float` failure). -/
def c7BadRecord : Record :=
  { userId := "u1", categories := some [.entry (some "Food") (some (.pyStr "oops"))] }

/-- C7 counterexample: the caught fault IS surfaced with its internal
message as the response body — two different internal faults give two
different (non-generic) bodies, each equal to the stringified exception,
and a load-time fault even takes the 404 path rather than a 500. This
refutes the claim that no internal exception details appear in the
response. -/
theorem c7_counterexample :
    get_stats (.error "connection refused by internal mongod at 10.0.0.5:27017") none
      = .err "connection refused by internal mongod at 10.0.0.5:27017" 404
    ∧ get_stats (.error "timeout") none ≠ get_stats (.error "some other fault") none := by
  constructor
  · rfl
  · decide

/-- C7 amended: every storage fault and every in-body fault (the `float`
coercion) is caught and surfaced as a structured error object — the request
never crashes — but the error body is the stringified exception itself, and
a load-time fault surfaces through the empty-data path with status 404
(faults raised inside an endpoint body get status 500). -/
theorem c7_fault_surfacing (m : String) :
    get_stats (.error m) none = .err m 404
    ∧ get_categories (.error m) none = .err m 404
    ∧ get_categories (.ok [c7BadRecord]) none =
        .err "could not convert string to float: oops" 500 := by
  refine ⟨rfl, rfl, by decide⟩

/-! Claim C9: empty-string market filter is falsy. -/

/-- Concrete record set used by the C9 witness. -/
def c9Recs : List Record :=
  [ { userId := "u9", purchaseAmount := some 3 } ]

/-- C9: an empty-string market_id is falsy in Python, so every endpoint
skips ObjectId validation and marketId filtering entirely and returns
exactly what it returns with no filter, and the echoed market_id of a
successful payload is the literal "all". -/
theorem c9_empty_market_id (src : Except String (List Record)) :
    get_stats src (some "") = get_stats src none
    ∧ get_categories src (some "") = get_categories src none
    ∧ get_locations src (some "") = get_locations src none
    ∧ get_time_analysis src (some "") = get_time_analysis src none
    ∧ get_demographics src (some "") = get_demographics src none
    ∧ get_category_sales_chart src (some "") = get_category_sales_chart src none
    ∧ get_location_sales_chart src (some "") = get_location_sales_chart src none
    ∧ get_gender_distribution_chart src (some "") = get_gender_distribution_chart src none
    ∧ get_seasonal_sales_chart src (some "") = get_seasonal_sales_chart src none
    ∧ (∀ rs : List Record, rs ≠ [] →
        ∃ st, get_stats (.ok rs) (some "") = .ok st ∧ st.market_id = "all") := by
  have ht : truthy (some "") = false := by decide
  have hld : load_data src (some "") = load_data src none := by
    simp [load_data, truthy]
  have hecho : echoMarket (some "") = echoMarket none := by decide
  refine ⟨?_, ?_, ?_, ?_, ?_, ?_, ?_, ?_, ?_, ?_⟩
  · simp only [get_stats, hld, hecho]
  · simp only [get_categories, hld, hecho]
  · simp only [get_locations, hld, hecho]
  · simp only [get_time_analysis, hld, hecho]
  · simp only [get_demographics, hld, hecho]
  · simp only [get_category_sales_chart, hld, hecho]
  · simp only [get_location_sales_chart, hld, hecho]
  · simp only [get_gender_distribution_chart, hld, hecho]
  · simp only [get_seasonal_sales_chart, hld, hecho]
  · intro rs hrs
    have hne : rs.isEmpty = false := by
      cases rs with
      | nil => exact absurd rfl hrs
      | cons a l => rfl
    refine ⟨{ total_sales := (nonNullAmounts rs).sum
            , avg_purchase :=
                if (nonNullAmounts rs).isEmpty then none
                else some ((nonNullAmounts rs).sum / (nonNullAmounts rs).length)
            , total_orders := rs.length
            , unique_customers := (rs.map (·.userId)).dedup.length
            , market_id := "all" }, ?_, rfl⟩
    have h1 : echoMarket (some "") = "all" := by decide
    simp only [get_stats, load_data, ht, Bool.false_eq_true, if_false, hne, h1]

/-- Witness for C9: the echoed market_id at a concrete record set. -/
theorem c9_empty_market_id_witness :
    ∃ st, get_stats (.ok c9Recs) (some "") = .ok st ∧ st.market_id = "all" :=
  (c9_empty_market_id (.ok c9Recs)).2.2.2.2.2.2.2.2.2 c9Recs (by decide)

/-! Claim C3: the age bucketizer. -/

/-- C3 counterexample: ages 100 and -1 are non-null numeric ages, yet the
bucketizer assigns them no label at all (`pd.cut` leaves values outside
[0, 100) as NaN), so it is not true that every non-null numeric age gets
exactly one of the five labels. -/
theorem c3_counterexample : ageBucket 100 = none ∧ ageBucket (-1) = none := by
  norm_num [ageBucket]

/-- C3 amended: restricted to the domain [0, 100) the bucketizer is total
and assigns exactly one of the five labels, with bands closed on the left
and open on the right: [0,25), [25,35), [35,45), [45,55), [55,100); ages
below 0 or at/above 100 fall in no band (see the counterexample). -/
theorem c3_age_bucketizer (a : ℚ) (h0 : 0 ≤ a) (h1 : a < 100) :
    (∃ l, ageBucket a = some l ∧ l ∈ ageLabels)
    ∧ (ageBucket a = some "<25" ↔ a < 25)
    ∧ (ageBucket a = some "25-34" ↔ 25 ≤ a ∧ a < 35)
    ∧ (ageBucket a = some "35-44" ↔ 35 ≤ a ∧ a < 45)
    ∧ (ageBucket a = some "45-54" ↔ 45 ≤ a ∧ a < 55)
    ∧ (ageBucket a = some "55+" ↔ 55 ≤ a) := by
  unfold ageBucket
  split_ifs with hA hB hC hD hE
  · obtain ⟨h0a, h25⟩ := hA
    refine ⟨⟨"<25", rfl, by decide⟩, iff_of_true rfl h25, ?_, ?_, ?_, ?_⟩
    · exact iff_of_false (by decide) (fun hx => by linarith [hx.1])
    · exact iff_of_false (by decide) (fun hx => by linarith [hx.1])
    · exact iff_of_false (by decide) (fun hx => by linarith [hx.1])
    · exact iff_of_false (by decide) (fun hx => by linarith)
  · obtain ⟨h25a, h35⟩ := hB
    refine ⟨⟨"25-34", rfl, by decide⟩, ?_, iff_of_true rfl ⟨h25a, h35⟩, ?_, ?_, ?_⟩
    · exact iff_of_false (by decide) (fun hx => by linarith)
    · exact iff_of_false (by decide) (fun hx => by linarith [hx.1])
    · exact iff_of_false (by decide) (fun hx => by linarith [hx.1])
    · exact iff_of_false (by decide) (fun hx => by linarith)
  · obtain ⟨h35a, h45⟩ := hC
    refine ⟨⟨"35-44", rfl, by decide⟩, ?_, ?_, iff_of_true rfl ⟨h35a, h45⟩, ?_, ?_⟩
    · exact iff_of_false (by decide) (fun hx => by linarith)
    · exact iff_of_false (by decide) (fun hx => by linarith [hx.2])
    · exact iff_of_false (by decide) (fun hx => by linarith [hx.1])
    · exact iff_of_false (by decide) (fun hx => by linarith)
  · obtain ⟨h45a, h55⟩ := hD
    refine ⟨⟨"45-54", rfl, by decide⟩, ?_, ?_, ?_, iff_of_true rfl ⟨h45a, h55⟩, ?_⟩
    · exact iff_of_false (by decide) (fun hx => by linarith)
    · exact iff_of_false (by decide) (fun hx => by linarith [hx.2])
    · exact iff_of_false (by decide) (fun hx => by linarith [hx.2])
    · exact iff_of_false (by decide) (fun hx => by linarith)
  · obtain ⟨h55a, _⟩ := hE
    refine ⟨⟨"55+", rfl, by decide⟩, ?_, ?_, ?_, ?_, iff_of_true rfl h55a⟩
    · exact iff_of_false (by decide) (fun hx => by linarith)
    · exact iff_of_false (by decide) (fun hx => by linarith [hx.2])
    · exact iff_of_false (by decide) (fun hx => by linarith [hx.2])
    · exact iff_of_false (by decide) (fun hx => by linarith [hx.2])
  · exfalso
    simp only [not_and, not_lt] at hA hB hC hD hE
    have k1 := hA h0
    have k2 := hB k1
    have k3 := hC k2
    have k4 := hD k3
    have k5 := hE k4
    linarith

/-- Witness for C3 (amended) at the concrete age 30. -/
theorem c3_age_bucketizer_witness :
    (∃ l, ageBucket 30 = some l ∧ l ∈ ageLabels)
    ∧ (ageBucket 30 = some "<25" ↔ (30:ℚ) < 25)
    ∧ (ageBucket 30 = some "25-34" ↔ (25:ℚ) ≤ 30 ∧ (30:ℚ) < 35)
    ∧ (ageBucket 30 = some "35-44" ↔ (35:ℚ) ≤ 30 ∧ (30:ℚ) < 45)
    ∧ (ageBucket 30 = some "45-54" ↔ (45:ℚ) ≤ 30 ∧ (30:ℚ) < 55)
    ∧ (ageBucket 30 = some "55+" ↔ (55:ℚ) ≤ 30) :=
  c3_age_bucketizer 30 (by norm_num) (by norm_num)

/-! Claim C2: demographics with ages {24, null}. -/

/-- Evaluation of the age-group histogram on the single age 24: all five
categorical labels appear, the four empty buckets with count 0. -/
theorem ageGroupCounts_single24 :
    ageGroupCounts [24] =
      [("<25", 1), ("25-34", 0), ("35-44", 0), ("45-54", 0), ("55+", 0)] := by
  have hb : ageBucket 24 = some "<25" := by norm_num [ageBucket]
  simp [ageGroupCounts, ageLabels, List.filter, hb]

/-- Evaluation of the age stats when the non-null ages are exactly [24]. -/
theorem ageStatsOf_single24 (rs : List Record)
    (hages : rs.filterMap (·.customerAge) = [24]) :
    ageStatsOf rs = some (AgeStats.mk 24 24 24
      [("<25", 1), ("25-34", 0), ("35-44", 0), ("45-54", 0), ("55+", 0)]) := by
  simp only [ageStatsOf, hages]
  rw [ageGroupCounts_single24]
  norm_num [listMin, listMax]

/-- Concrete record pair realising the C2 scenario: one age 24, one null. -/
def c2Recs : List Record :=
  [ { userId := "u1", customerAge := some 24 },
    { userId := "u2" } ]

/-- C2 counterexample: with ages {24, null} the age-group histogram
produced by the demographics view contains entries for ALL FIVE labels —
the zero-count buckets included, because `value_counts` on a categorical
column emits every category — so the histogram is not the single-entry
mapping the claim describes. -/
theorem c2_counterexample :
    ageStatsOf c2Recs = some (AgeStats.mk 24 24 24
      [("<25", 1), ("25-34", 0), ("35-44", 0), ("45-54", 0), ("55+", 0)])
    ∧ ageGroupCounts [24] ≠ [("<25", 1)] := by
  constructor
  · exact ageStatsOf_single24 c2Recs rfl
  · rw [ageGroupCounts_single24]
    decide

/-- C2 amended: for every record set whose customerAge multiset is
{24, null}, the demographics view computes average = min = max = 24 from
the value 24 alone, and its age-group histogram maps "<25" to 1 and each of
the other four labels to 0 (all five labels appear as keys); the null-age
record is excluded from the mean and adds to no bucket count. -/
theorem c2_demographics (rs : List Record)
    (h : (rs.map (·.customerAge)).Perm [some 24, none]) :
    ∃ d, get_demographics (.ok rs) none = .ok d
      ∧ d.age_stats = some (AgeStats.mk 24 24 24
          [("<25", 1), ("25-34", 0), ("35-44", 0), ("45-54", 0), ("55+", 0)]) := by
  have hlen : rs.length = 2 := by simpa using h.length_eq
  have hages : rs.filterMap (·.customerAge) = [24] := by
    have hmap : rs.filterMap (·.customerAge) = (rs.map (·.customerAge)).filterMap id := by
      rw [List.filterMap_map]
      rfl
    rw [hmap]
    exact List.perm_singleton.1 (by simpa using h.filterMap id)
  have hne : rs.isEmpty = false := by
    cases rs with
    | nil => simp at hlen
    | cons a l => rfl
  refine ⟨{ gender_distribution := countsBy (rs.filterMap (·.customerGender))
          , gender_sales :=
              groupSum strLeP
                (rs.filterMap (fun r => r.customerGender.map (fun g => (g, r.purchaseAmount))))
          , age_stats := ageStatsOf rs
          , market_id := "all" }, ?_, ageStatsOf_single24 rs hages⟩
  simp only [get_demographics, load_data, truthy, hne, Bool.false_eq_true, if_false,
    echoMarket]

/-- Witness for C2 (amended) at the concrete record pair. -/
theorem c2_demographics_witness :
    ∃ d, get_demographics (.ok c2Recs) none = .ok d
      ∧ d.age_stats = some (AgeStats.mk 24 24 24
          [("<25", 1), ("25-34", 0), ("35-44", 0), ("45-54", 0), ("55+", 0)]) :=
  c2_demographics c2Recs (by decide)

/-! Claim C4: seasonal chart ordering. -/

/-- Concrete record set whose seasons are exactly {Fall, Winter}. -/
def c4Recs : List Record :=
  [ { userId := "u1", purchaseAmount := some 7, season := some .fall },
    { userId := "u2", purchaseAmount := some 5, season := some .winter } ]

/-- C4: the seasonal chart's season keys are strictly ordered by the fixed
ordinal order Winter, Spring, Summer, Fall whatever the input order; a
season appears among the keys exactly when some record carries it (absent
seasons are omitted, never shown as zero); and on a record set with seasons
{Fall, Winter} the chart is exactly labels ["Winter", "Fall"] with the
matching values. -/
theorem c4_seasonal_order :
    (∀ rs : List Record,
        ((seasonSalesPairs rs).map Prod.fst).Pairwise (fun a b => a.idx < b.idx))
    ∧ (∀ (rs : List Record) (s : Season),
        s ∈ (seasonSalesPairs rs).map Prod.fst ↔ ∃ r ∈ rs, r.season = some s)
    ∧ get_seasonal_sales_chart (.ok c4Recs) none =
        .ok { labels := ["Winter", "Fall"], values := [5, 7],
              title := "Sales by Season", market_id := "all" } := by
  have htot : ∀ p q : Season × ℚ, seasonOrdLe p q ∨ seasonOrdLe q p := fun p q =>
    Nat.le_total p.1.idx q.1.idx
  have htr : ∀ p q r : Season × ℚ, seasonOrdLe p q → seasonOrdLe q r → seasonOrdLe p r :=
    fun p q r hpq hqr => Nat.le_trans hpq hqr
  refine ⟨?_, ?_, ?_⟩
  · intro rs
    have h1 : (seasonSalesPairs rs).Pairwise seasonOrdLe :=
      pairwise_insertionSort seasonOrdLe htot htr _
    have hperm :
        ((seasonSalesPairs rs).map Prod.fst).Perm
          ((groupSum seasonAlphaLe
            (rs.filterMap (fun r => r.season.map (fun s => (s, r.purchaseAmount))))).map
              Prod.fst) :=
      (List.perm_insertionSort seasonOrdLe _).map Prod.fst
    have hnodup : ((seasonSalesPairs rs).map Prod.fst).Nodup :=
      hperm.nodup_iff.2 (groupSum_keys_nodup seasonAlphaLe _)
    have h2 : (seasonSalesPairs rs).Pairwise (fun p q => p.1 ≠ q.1) :=
      List.pairwise_map.1 hnodup
    have hinj : ∀ a b : Season, a ≠ b → a.idx ≠ b.idx := by
      intro a b hne
      cases a <;> cases b <;> simp_all [Season.idx]
    rw [List.pairwise_map]
    exact (h1.and h2).imp (fun h => Nat.lt_of_le_of_ne h.1 (hinj _ _ h.2))
  · intro rs s
    have hperm :
        ((seasonSalesPairs rs).map Prod.fst).Perm
          ((groupSum seasonAlphaLe
            (rs.filterMap (fun r => r.season.map (fun s => (s, r.purchaseAmount))))).map
              Prod.fst) :=
      (List.perm_insertionSort seasonOrdLe _).map Prod.fst
    rw [hperm.mem_iff, mem_groupSum_keys]
    simp only [List.mem_map, List.mem_filterMap, Option.map_eq_some']
    constructor
    · rintro ⟨p, ⟨a, ha, a1, h1, rfl⟩, rfl⟩
      exact ⟨a, ha, h1⟩
    · rintro ⟨r, hr, h⟩
      exact ⟨(s, r.purchaseAmount), ⟨r, hr, s, h, rfl⟩, rfl⟩
  · have e1 : (Season.fall == Season.winter) = false := by decide
    have e2 : (Season.winter == Season.fall) = false := by decide
    norm_num [get_seasonal_sales_chart, load_data, truthy, echoMarket, seasonSalesPairs,
      groupSum, List.insertionSort, List.orderedInsert, seasonAlphaLe, seasonOrdLe,
      Season.alphaIdx, Season.idx, Season.str, c4Recs, List.dedup_cons_of_not_mem,
      List.dedup_nil, List.filter, List.filterMap_cons, e1, e2]

/-! Claim C10: null locations are excluded from every location output. -/

theorem filterMap_middle_none {α β : Type} (f : α → Option β) (pre post : List α) (r : α)
    (h : f r = none) :
    (pre ++ r :: post).filterMap f = (pre ++ post).filterMap f := by
  simp [List.filterMap_append, List.filterMap_cons, h]

theorem countsBy_map_fst {K : Type} [DecidableEq K] (ks : List K) :
    (countsBy ks).map Prod.fst = ks.dedup := by
  have hid : (Prod.fst ∘ fun k : K => (k, ks.count k)) = id := rfl
  rw [countsBy, List.map_map, hid, List.map_id]

/-- C10: a record whose location field is null contributes nothing to the
location count distribution, the per-location purchase sums, or the
location-sales chart — removing such a record changes none of those
outputs — and every key of those outputs is a location some record
actually carries, so null never appears as a location key. -/
theorem c10_null_location (pre post : List Record) (r : Record) (h : r.location = none) :
    (locationCounts (pre ++ r :: post) = locationCounts (pre ++ post)
     ∧ locationSales (pre ++ r :: post) = locationSales (pre ++ post)
     ∧ locationSalesPairs (pre ++ r :: post) = locationSalesPairs (pre ++ post))
    ∧ (∀ (df : List Record) (k : String),
        (k ∈ (locationCounts df).map Prod.fst ↔ ∃ rec ∈ df, rec.location = some k)
        ∧ (k ∈ (locationSales df).map Prod.fst ↔ ∃ rec ∈ df, rec.location = some k)
        ∧ (k ∈ (locationSalesPairs df).map Prod.fst ↔ ∃ rec ∈ df, rec.location = some k)) := by
  constructor
  · have h1 : (pre ++ r :: post).filterMap (·.location)
        = (pre ++ post).filterMap (·.location) :=
      filterMap_middle_none _ pre post r h
    have h2 : (pre ++ r :: post).filterMap
          (fun x => x.location.map (fun l => (l, x.purchaseAmount)))
        = (pre ++ post).filterMap
          (fun x => x.location.map (fun l => (l, x.purchaseAmount))) :=
      filterMap_middle_none _ pre post r (by rw [h]; rfl)
    refine ⟨?_, ?_, ?_⟩
    · rw [locationCounts, locationCounts, h1]
    · rw [locationSales, locationSales, h2]
    · rw [locationSalesPairs, locationSalesPairs, locationSales, locationSales, h2]
  · intro df k
    have hsales : k ∈ (locationSales df).map Prod.fst ↔ ∃ rec ∈ df, rec.location = some k := by
      rw [locationSales, mem_groupSum_keys]
      simp only [List.mem_map, List.mem_filterMap, Option.map_eq_some']
      constructor
      · rintro ⟨p, ⟨a, ha, l, hl, rfl⟩, rfl⟩
        exact ⟨a, ha, hl⟩
      · rintro ⟨rec, hrec, hl⟩
        exact ⟨(k, rec.purchaseAmount), ⟨rec, hrec, k, hl, rfl⟩, rfl⟩
    refine ⟨?_, hsales, ?_⟩
    · rw [locationCounts, countsBy_map_fst, List.mem_dedup, List.mem_filterMap]
    · have hperm : ((locationSalesPairs df).map Prod.fst).Perm
          ((locationSales df).map Prod.fst) :=
        (List.perm_insertionSort descQ _).map Prod.fst
      rw [locationSalesPairs] at hperm ⊢
      rw [hperm.mem_iff]
      exact hsales

/-- Record with a location, for the C10 witness. -/
def c10Loc : Record := { userId := "u1", location := some "Paris", purchaseAmount := some 4 }

/-- Record with a null location, for the C10 witness. -/
def c10Null : Record := { userId := "u2", purchaseAmount := some 9 }

/-- Witness for C10: dropping a concrete null-location record changes none
of the location outputs. -/
theorem c10_null_location_witness :
    locationCounts ([c10Loc] ++ c10Null :: []) = locationCounts ([c10Loc] ++ [])
    ∧ locationSales ([c10Loc] ++ c10Null :: []) = locationSales ([c10Loc] ++ [])
    ∧ locationSalesPairs ([c10Loc] ++ c10Null :: []) = locationSalesPairs ([c10Loc] ++ []) :=
  (c10_null_location [c10Loc] [] c10Null rfl).1

/-! Claim C6: category-expansion defaults and aborts. -/

/-- Record whose single category entry has an uncoercible amount value. -/
def c6BadRecord : Record :=
  { userId := "u1", categories := some [.entry (some "Food") (some (.pyStr "abc"))] }

/-- C6 counterexample: a dict entry whose amount is present but not
numerically coercible is neither skipped nor defaulted — `float` raises,
the exception escapes the expansion loop, and the whole request aborts
with the 500 error object instead of returning a payload. -/
theorem c6_counterexample :
    get_categories (.ok [c6BadRecord]) none =
      .err "could not convert string to float: abc" 500 := by
  decide

/-- C6 amended: during category expansion a non-dict entry is skipped
silently, a missing category field defaults to the sentinel "Unknown",
and a missing amount field defaults to 0; but an entry whose amount is
present and fails numeric coercion raises, aborting the whole expansion
(and with it the request, see the counterexample) — it is not skipped or
defaulted at the entry level. -/
theorem c6_expansion_defaults :
    (∀ es : List CatEntry, expandEntries (.notDict :: es) = expandEntries es)
    ∧ (∀ c : Option String,
        expandEntry (.entry c none) = .ok (some { category := c.getD "Unknown", amount := 0 }))
    ∧ expandEntry (.entry none none) = .ok (some { category := "Unknown", amount := 0 })
    ∧ (∀ (c : Option String) (s : String) (es : List CatEntry), strToRatQ s = none →
        expandEntries (.entry c (some (.pyStr s)) :: es) =
          .error ("could not convert string to float: " ++ s)) := by
  refine ⟨?_, ?_, rfl, ?_⟩
  · intro es
    cases h : expandEntries es <;> simp [expandEntries, expandEntry, h]
  · intro c
    rfl
  · intro c s es hs
    simp [expandEntries, expandEntry, floatPy, hs]

/-- Witness for C6 (amended): the abort conjunct at the concrete
uncoercible amount "abc". -/
theorem c6_expansion_defaults_witness :
    expandEntries [.entry none (some (.pyStr "abc"))] =
      .error "could not convert string to float: abc" :=
  c6_expansion_defaults.2.2.2 none "abc" [] (by decide)

/-! Claim C8: category chart ordering. -/

theorem filterMap_snd_filter_obs (obs : List CatShare) (k : String) :
    ((obs.map (fun c => (c.category, some c.amount))).filter
        (fun p => p.1 == k)).filterMap Prod.snd
      = (obs.filter (fun o => o.category == k)).map CatShare.amount := by
  induction obs with
  | nil => rfl
  | cons c cs ih =>
      by_cases h : c.category == k
      · simp [List.filter_cons, h, List.filterMap_cons, ih]
      · simp [List.filter_cons, h, ih]

/-- Category entries naming "Zebra" before "Apple", tied amounts. -/
def c8Entries : List CatEntry :=
  [ CatEntry.entry (some "Zebra") (some (PyVal.pyNum 5)),
    CatEntry.entry (some "Apple") (some (PyVal.pyNum 5)) ]

/-- The record whose expansion sees "Zebra" before "Apple", tied amounts. -/
def c8Recs : List Record :=
  [ { userId := "u1", categories := some c8Entries } ]

/-- C8 counterexample: the expanded observations list "Zebra" first, both
categories sum to 5, yet the chart labels come out ["Apple", "Zebra"]:
groupby emits the keys alphabetically, and on this two-element tie — well
inside the regime where numpy sorts with a stable insertion sort — the
descending sort keeps that alphabetical order, so the equal sums are not
ordered by first-seen category as the claim states. -/
theorem c8_counterexample :
    expandRecords c8Recs = .ok
      [ { category := "Zebra", amount := 5 }, { category := "Apple", amount := 5 } ]
    ∧ get_category_sales_chart (.ok c8Recs) none =
        .ok { labels := ["Apple", "Zebra"], values := [5, 5],
              title := "Sales by Category", market_id := "all" }
    ∧ (["Apple", "Zebra"] : List String) ≠ ["Zebra", "Apple"] := by
  refine ⟨by decide, ?_, by decide⟩
  have hZA : strLe "Zebra" "Apple" = false := by decide
  have hAZ : strLe "Apple" "Zebra" = true := by decide
  have e1 : (("Zebra" : String) == "Apple") = false := by decide
  have e2 : (("Apple" : String) == "Zebra") = false := by decide
  have e3 : (("Zebra" : String) == "Zebra") = true := by decide
  have e4 : (("Apple" : String) == "Apple") = true := by decide
  norm_num [get_category_sales_chart, load_data, truthy, echoMarket, c8Recs,
    expandRecords, expandEntries, expandEntry, floatPy, recordEntries, c8Entries,
    categorySalesPairs, groupSum, strLeP, descQ, List.insertionSort,
    List.orderedInsert, List.dedup_cons_of_not_mem, List.dedup_nil, List.filter,
    List.filterMap_cons, hZA, hAZ, e1, e2, e3, e4]

/-- C8 amended: for every record set whose category expansion succeeds
with at least one observation, the category chart presents the
per-category sums as parallel label/value sequences sorted in descending
order of amount: every value is the sum of the expanded amounts of its
label, the labels are exactly the distinct expanded categories, and the
rows are a permutation of the alphabetically keyed group table. The
relative order of equal sums is NOT first-seen order (see the
counterexample); the source sorts the alphabetical group table with an
unstable quicksort, so no universal tie order is asserted. When the
expansion yields no observation at all, the endpoint does not return an
empty chart: the source evaluates `.empty` on a plain Python list, the
AttributeError is caught, and the request fails with the 500 error
object. -/
theorem c8_category_chart (rs : List Record) (obs : List CatShare)
    (hobs : expandRecords rs = .ok obs) (hne : rs ≠ []) (hobsne : obs ≠ []) :
    get_category_sales_chart (.ok rs) none =
      .ok { labels := (categorySalesPairs obs).map Prod.fst
          , values := (categorySalesPairs obs).map Prod.snd
          , title := "Sales by Category"
          , market_id := "all" }
    ∧ (categorySalesPairs obs).Pairwise descQ
    ∧ (categorySalesPairs obs).Perm
        (groupSum strLeP (obs.map (fun c => (c.category, some c.amount))))
    ∧ (∀ k v, (k, v) ∈ categorySalesPairs obs →
        v = ((obs.filter (fun o => o.category == k)).map CatShare.amount).sum)
    ∧ (∀ k, k ∈ (categorySalesPairs obs).map Prod.fst ↔ ∃ o ∈ obs, o.category = k)
    ∧ (∀ rs2 : List Record, rs2 ≠ [] → expandRecords rs2 = .ok [] →
        get_category_sales_chart (.ok rs2) none =
          .err "list object has no attribute empty" 500) := by
  have hne2 : rs.isEmpty = false := by
    cases rs with
    | nil => exact absurd rfl hne
    | cons a l => rfl
  have hone : obs.isEmpty = false := by
    cases obs with
    | nil => exact absurd rfl hobsne
    | cons a l => rfl
  refine ⟨?_, ?_, ?_, ?_, ?_, ?_⟩
  · simp only [get_category_sales_chart, load_data, truthy, hne2, Bool.false_eq_true,
      if_false, hobs, hone, echoMarket]
  · exact pairwise_insertionSort descQ (fun p q => le_total q.2 p.2)
      (fun p q r h1 h2 => le_trans h2 h1) _
  · exact List.perm_insertionSort descQ _
  · intro k v hkv
    have hmem : (k, v) ∈ groupSum strLeP (obs.map (fun c => (c.category, some c.amount))) :=
      ((List.perm_insertionSort descQ _).mem_iff).1 hkv
    have hv := mem_groupSum strLeP _ k v hmem
    rw [hv, filterMap_snd_filter_obs]
  · intro k
    have hperm := (List.perm_insertionSort descQ
        (groupSum strLeP (obs.map (fun c => (c.category, some c.amount))))).map Prod.fst
    rw [categorySalesPairs, hperm.mem_iff, mem_groupSum_keys]
    simp [List.mem_map]
  · intro rs2 h1 h2
    have hne3 : rs2.isEmpty = false := by
      cases rs2 with
      | nil => exact absurd rfl h1
      | cons a l => rfl
    simp only [get_category_sales_chart, load_data, truthy, hne3, Bool.false_eq_true,
      if_false, h2, List.isEmpty_nil, if_true]

/-- The expanded observations of the C8 witness record set. -/
def c8Obs : List CatShare :=
  [ { category := "Zebra", amount := 5 }, { category := "Apple", amount := 5 } ]

/-- Witness for C8 (amended) at the concrete tied-amount record set. -/
theorem c8_category_chart_witness :
    get_category_sales_chart (.ok c8Recs) none =
      .ok { labels := (categorySalesPairs c8Obs).map Prod.fst
          , values := (categorySalesPairs c8Obs).map Prod.snd
          , title := "Sales by Category"
          , market_id := "all" }
    ∧ (categorySalesPairs c8Obs).Pairwise descQ
    ∧ (categorySalesPairs c8Obs).Perm
        (groupSum strLeP (c8Obs.map (fun c => (c.category, some c.amount))))
    ∧ (∀ k v, (k, v) ∈ categorySalesPairs c8Obs →
        v = ((c8Obs.filter (fun o => o.category == k)).map CatShare.amount).sum)
    ∧ (∀ k, k ∈ (categorySalesPairs c8Obs).map Prod.fst ↔ ∃ o ∈ c8Obs, o.category = k)
    ∧ (∀ rs2 : List Record, rs2 ≠ [] → expandRecords rs2 = .ok [] →
        get_category_sales_chart (.ok rs2) none =
          .err "list object has no attribute empty" 500) :=
  c8_category_chart c8Recs c8Obs (by decide) (by decide) (by decide)

/-- Witness for C7 (amended) at the concrete fault message "boom". -/
theorem c7_fault_surfacing_witness :
    get_stats (.error "boom") none = .err "boom" 404
    ∧ get_categories (.error "boom") none = .err "boom" 404
    ∧ get_categories (.ok [c7BadRecord]) none =
        .err "could not convert string to float: oops" 500 :=
  c7_fault_surfacing "boom"

/-- Witness for C4: the concrete {Fall, Winter} scenario conjunct. -/
theorem c4_seasonal_order_witness :
    get_seasonal_sales_chart (.ok c4Recs) none =
      .ok { labels := ["Winter", "Fall"], values := [5, 7],
            title := "Sales by Season", market_id := "all" } :=
  c4_seasonal_order.2.2
